import Mathlib

/-!
Verification development for the mock backend of the file-sharing service
(`src/file-sharing-fe-web/mockbe/server.py`).

The server keeps four global in-memory stores: `users` (email -> user record),
`sessions` (bearer token -> email), `totp_temp_sessions` (email -> email, the
pending second-factor challenges) and `files` (file id -> share record), plus
a mutable `policy` record.  Python dicts are modelled as association lists
with dict-style update and delete; record fields keep the source names.
Timestamps (ISO datetime strings parsed with `datetime.fromisoformat` and
compared as instants) are modelled as integers.  Randomly generated values
(`uuid.uuid4()` ids and tokens) are passed in as explicit fresh-value
arguments, since the claims do not depend on their concrete values.
-/

namespace FileSharing

/-- Lookup in a Python-style dict modelled as an association list (`d.get(k)`). -/
def lookup {α : Type} (m : List (String × α)) (k : String) : Option α :=
  match m with
  | [] => none
  | (k', v) :: rest => if k' = k then some v else lookup rest k

/-- Python `k in d` membership test on a dict. -/
def containsKey {α : Type} (m : List (String × α)) (k : String) : Bool :=
  match m with
  | [] => false
  | (k', _) :: rest => if k' = k then true else containsKey rest k

/-- Python `d[k] = v`: replace the binding of `k` if present, otherwise add it. -/
def setKV {α : Type} (m : List (String × α)) (k : String) (v : α) :
    List (String × α) :=
  match m with
  | [] => [(k, v)]
  | (k', v') :: rest => if k' = k then (k, v) :: rest else (k', v') :: setKV rest k v

/-- Python `del d[k]`: remove the binding of `k` (first occurrence). -/
def delKV {α : Type} (m : List (String × α)) (k : String) : List (String × α) :=
  match m with
  | [] => []
  | (k', v') :: rest => if k' = k then rest else (k', v') :: delKV rest k

/-- Python dicts have unique keys; states reachable from the initial state keep
this invariant, and a few lemmas need it. -/
abbrev keysNodup {α : Type} (m : List (String × α)) : Prop :=
  (m.map Prod.fst).Nodup

/-- A user record, mirroring the dictionaries stored in the global `users` map
(server.py lines 20-55 and the shapes written by `register`). -/
structure User where
  id : String
  username : String
  email : String
  password : String
  role : String
  totp_enabled : Bool
  totp_secret : Option String
  deriving Repr, DecidableEq

/-- The admin policy record (server.py lines 520-527). -/
structure Policy where
  maxFileSizeMB : Nat
  minValidityHours : Nat
  maxValidityDays : Nat
  defaultValidityDays : Nat
  requirePasswordMinLength : Nat
  deriving Repr, DecidableEq

/-- A stored share record, mirroring the `file_meta` dictionaries kept in the
global `files` map (server.py lines 69-71 and 657-671).  The `shareLink`
string (derived from the token) and the raw bytes are omitted; timestamps are
integers. -/
structure FileMeta where
  id : String
  filename : String
  size : Nat
  shareToken : String
  ownerEmail : Option String
  isPublic : Bool
  passwordProtected : Bool
  availableFrom : Option Int
  availableTo : Option Int
  sharedWith : List String
  createdAt : Int
  totpEnabled : Bool
  deriving Repr, DecidableEq

/-- The four global mutable stores of the server plus the mutable policy
(server.py lines 27-71 and 520-527): `users` keyed by email, `sessions`
mapping bearer token to email, `totp_temp_sessions` mapping email to email
(the pending second-factor challenges), `files` keyed by file id. -/
structure ServerState where
  users : List (String × User)
  sessions : List (String × String)
  totp_temp_sessions : List (String × String)
  files : List (String × FileMeta)
  policy : Policy
  deriving Repr, DecidableEq

/-- The fixed literal second-factor code the mock accepts for every user
(server.py line 66). -/
def MOCK_TOTP_CODE : String := "123456"

/-- Initial `users` map (server.py lines 27-55).  The `id` fields are
`uuid.uuid4()` values; they are opaque random strings no behaviour depends
on, modelled here by fixed placeholder strings. -/
def initial_users : List (String × User) :=
  [ ("jitensha@hcmut.edu.vn",
      { id := "uuid-1", username := "jitensha", email := "jitensha@hcmut.edu.vn",
        password := "jitensha@123", role := "admin",
        totp_enabled := false, totp_secret := none }),
    ("eenose@hcmut.edu.vn",
      { id := "uuid-2", username := "eenose", email := "eenose@hcmut.edu.vn",
        password := "eenose@123", role := "user",
        totp_enabled := true, totp_secret := none }),
    ("bigbluewhale@hcmut.edu.vn",
      { id := "uuid-3", username := "bigbluewhale", email := "bigbluewhale@hcmut.edu.vn",
        password := "bigbluewhale@123", role := "user",
        totp_enabled := false, totp_secret := none }) ]

/-- Initial policy values (server.py lines 520-527). -/
def initialPolicy : Policy :=
  { maxFileSizeMB := 50, minValidityHours := 1, maxValidityDays := 30,
    defaultValidityDays := 7, requirePasswordMinLength := 6 }

/-- The state of the server at startup: three users, no sessions, no pending
challenges, no files. -/
def initialState : ServerState :=
  { users := initial_users, sessions := [], totp_temp_sessions := [],
    files := [], policy := initialPolicy }

/-- `get_file_status` (server.py lines 109-132): lifecycle status of a share
record from its availability window and the current time.  The source parses
the optional ISO strings and compares `datetime` instants; here the instants
are integers and an absent/empty field is `none`. -/
def get_file_status (now : Int) (file_meta : FileMeta) : String :=
  if file_meta.availableFrom.any (fun available_from => decide (now < available_from)) then
    "pending"
  else if file_meta.availableTo.any (fun available_to => decide (available_to < now)) then
    "expired"
  else
    "active"

/-- Helper `get_current_user` (server.py lines 79-96), returning the session's
email key as well, because endpoints mutate the user record in place under
that key.  Extraction of the token from the `Authorization: Bearer` header is
elided: `token` is the parsed bearer token.  The `if not email` and
`if not user` truthiness tests of the source are the empty-string test and
the `none` test respectively (a present dict is always truthy). -/
def get_current_session (st : ServerState) (token : String) :
    Option (String × String × User) :=
  match lookup st.sessions token with
  | none => none
  | some email =>
    if email = "" then none
    else
      match lookup st.users email with
      | none => none
      | some user => some (token, email, user)

/-- `get_current_user` as the endpoints use it: `(token, user)` on success. -/
def get_current_user (st : ServerState) (token : String) : Option (String × User) :=
  (get_current_session st token).map (fun x => (x.1, x.2.2))

/-- Python truthiness of an optional string (`if x:`): false for `None` and `""`. -/
def truthy : Option String → Bool
  | none => false
  | some s => s != ""

/-- Python `x or None` on an optional string: a falsy (absent or empty) value
becomes `None`. -/
def orNone (s : Option String) : Option String :=
  match s with
  | none => none
  | some p => if p = "" then none else some p

/-- Outcome of `register` (server.py lines 136-167). -/
inductive RegisterResult where
  | missingFields   -- 400 email and password are required
  | userExists      -- 400 User already exists
  | created         -- 201
  deriving Repr, DecidableEq

/-- `register` (server.py lines 136-167).  `username` is `data.get("username", "")`;
`freshId` stands for the `uuid.uuid4()` value. -/
def register (st : ServerState) (email password username freshId : String) :
    ServerState × RegisterResult :=
  if email = "" ∨ password = "" then (st, .missingFields)
  else if containsKey st.users email then (st, .userExists)
  else
    let newUser : User :=
      { id := freshId, email := email, username := username,
        password := password, role := "user",
        totp_enabled := false, totp_secret := none }
    ({ st with users := setKV st.users email newUser }, .created)

/-- Outcome of `login` (server.py lines 170-209). -/
inductive LoginResult where
  | invalidCredentials                 -- 401 Invalid email or password
  | requireTOTP                        -- 200 with requireTOTP true and no token
  | loggedIn (accessToken : String)    -- 200 with accessToken
  deriving Repr, DecidableEq

/-- `login` (server.py lines 170-209).  `freshToken` stands for the
`create_token("token")` value minted on the direct-login branch. -/
def login (st : ServerState) (email password freshToken : String) :
    ServerState × LoginResult :=
  match lookup st.users email with
  | none => (st, .invalidCredentials)
  | some user =>
    if user.password ≠ password then (st, .invalidCredentials)
    else if user.totp_enabled then
      ({ st with totp_temp_sessions := setKV st.totp_temp_sessions email email },
       .requireTOTP)
    else
      ({ st with sessions := setKV st.sessions freshToken email },
       .loggedIn freshToken)

/-- Outcome of `login_totp` (server.py lines 212-250). -/
inductive TotpLoginResult where
  | missingFields                      -- 400 email and code are required
  | invalidTempToken                   -- 401 Invalid or expired tempToken
  | invalidCode                        -- 401 Invalid TOTP code
  | loggedIn (accessToken : String)    -- 200 with accessToken
  deriving Repr, DecidableEq

/-- `login_totp` (server.py lines 212-250): second step of a two-step login.
It looks the email up in `totp_temp_sessions` (`if not email` is the
none-or-empty test), compares the code against the fixed `MOCK_TOTP_CODE`
literal, and on success mints a session and deletes the pending challenge.
The response serialization (which re-reads the user record) is elided. -/
def login_totp (st : ServerState) (email code freshToken : String) :
    ServerState × TotpLoginResult :=
  if email = "" ∨ code = "" then (st, .missingFields)
  else
    match lookup st.totp_temp_sessions email with
    | none => (st, .invalidTempToken)
    | some email2 =>
      if email2 = "" then (st, .invalidTempToken)
      else if code ≠ MOCK_TOTP_CODE then (st, .invalidCode)
      else
        ({ st with sessions := setKV st.sessions freshToken email2,
                   totp_temp_sessions := delKV st.totp_temp_sessions email2 },
         .loggedIn freshToken)

/-- Outcome of the `totp_setup`, `totp_verify`, `totp_disable` endpoints. -/
inductive TotpResult where
  | unauthorized      -- 401
  | codeRequired      -- 400 code is required
  | notEnabled        -- 400 TOTP not enabled for this account
  | invalidCode       -- 400/401 Invalid TOTP code
  | ok                -- 200
  deriving Repr, DecidableEq

/-- `totp_setup` (server.py lines 253-278): stores the fixed mock secret on the
authenticated user's record (not yet enabled). -/
def totp_setup (st : ServerState) (token : String) : ServerState × TotpResult :=
  match get_current_session st token with
  | none => (st, .unauthorized)
  | some (_, emailKey, user) =>
    let user2 : User := { user with totp_secret := some "MOCK-SECRET-SECRET" }
    ({ st with users := setKV st.users emailKey user2 }, .ok)

/-- `totp_verify` (server.py lines 281-309): enables 2FA for the authenticated
user when the presented code equals `MOCK_TOTP_CODE`; the stored secret is
never consulted. -/
def totp_verify (st : ServerState) (token code : String) : ServerState × TotpResult :=
  match get_current_session st token with
  | none => (st, .unauthorized)
  | some (_, emailKey, user) =>
    if code = "" then (st, .codeRequired)
    else if code ≠ MOCK_TOTP_CODE then (st, .invalidCode)
    else
      let user2 : User := { user with totp_enabled := true }
      ({ st with users := setKV st.users emailKey user2 }, .ok)

/-- `totp_disable` (server.py lines 312-344): disables 2FA and clears the
stored secret when the presented code equals `MOCK_TOTP_CODE`. -/
def totp_disable (st : ServerState) (token code : String) : ServerState × TotpResult :=
  match get_current_session st token with
  | none => (st, .unauthorized)
  | some (_, emailKey, user) =>
    if code = "" then (st, .codeRequired)
    else if ¬ user.totp_enabled then (st, .notEnabled)
    else if code ≠ MOCK_TOTP_CODE then (st, .invalidCode)
    else
      let user2 : User := { user with totp_enabled := false, totp_secret := none }
      ({ st with users := setKV st.users emailKey user2 }, .ok)

/-- Outcome of `logout` (server.py lines 347-371). -/
inductive LogoutResult where
  | unauthorized      -- 401 No token found
  | loggedOut         -- 200
  deriving Repr, DecidableEq

/-- `logout` (server.py lines 347-371): requires a valid bearer token (else
401), then removes the token from `sessions` if present. -/
def logout (st : ServerState) (token : String) : ServerState × LogoutResult :=
  match get_current_user st token with
  | none => (st, .unauthorized)
  | some (tok, _) =>
    (if containsKey st.sessions tok then
      { st with sessions := delKV st.sessions tok }
    else st, .loggedOut)

/-- Outcome of `change_password` (server.py lines 374-407). -/
inductive ChangePasswordResult where
  | unauthorized       -- 401
  | weakPassword       -- 400 new password must be at least 6 characters
  | wrongOldPassword   -- 400 the old password is incorrect
  | totpNotEnabled     -- 400 account does not have TOTP enabled
  | invalidTotpCode    -- 400 invalid TOTP code
  | proofRequired      -- 400 either oldPassword or totpCode is required
  | changed            -- 200
  deriving Repr, DecidableEq

/-- `change_password` (server.py lines 374-407): the authenticated user proves
the change with the current password or, when 2FA is enabled, the mock TOTP
code, and the password field is replaced.  `oldPassword` and `totpCode` are
the optional body fields (`if old_password:` / `elif totp_code:` are
truthiness tests). -/
def change_password (st : ServerState) (token : String)
    (oldPassword totpCode : Option String) (newPassword : String) :
    ServerState × ChangePasswordResult :=
  match get_current_session st token with
  | none => (st, .unauthorized)
  | some (_, emailKey, user) =>
    if newPassword = "" ∨ newPassword.length < 6 then (st, .weakPassword)
    else if truthy oldPassword then
      if user.password ≠ oldPassword.getD "" then (st, .wrongOldPassword)
      else
        let user2 : User := { user with password := newPassword }
        ({ st with users := setKV st.users emailKey user2 }, .changed)
    else if truthy totpCode then
      if ¬ user.totp_enabled then (st, .totpNotEnabled)
      else if totpCode.getD "" ≠ MOCK_TOTP_CODE then (st, .invalidTotpCode)
      else
        let user2 : User := { user with password := newPassword }
        ({ st with users := setKV st.users emailKey user2 }, .changed)
    else (st, .proofRequired)

/-- The parsed multipart form of an upload request (server.py lines 571-649).
`token` is the parsed bearer token when an Authorization header is present.
`file` is `(filename, size)` of the uploaded part, `none` when no file part
was sent.  `isPublic` and `enableTOTP` carry the already-parsed truthiness of
the form strings; `password` is the raw optional form field; the datetime
fields are the already-parsed instants (ISO-format parsing elided). -/
structure UploadRequest where
  token : Option String
  file : Option (String × Nat)
  isPublic : Bool
  password : Option String
  availableFrom : Option Int
  availableTo : Option Int
  sharedWith : List String
  enableTOTP : Bool
  deriving Repr, DecidableEq

/-- Outcome of `upload_file` (server.py lines 571-694).  There is no
unauthorized outcome: the endpoint never rejects for a missing or invalid
token. -/
inductive UploadResult where
  | fileRequired              -- 400 file is required
  | fileTooLarge              -- 413
  | passwordTooShort          -- 400
  | badWindow                 -- 400 availableFrom must be earlier than availableTo
  | uploaded (fileId : String) -- 200 success: true
  deriving Repr, DecidableEq

/-- The `get_current_user` call at the top of `upload_file` (server.py line
585): the requester, if any; `none` both when no bearer token is presented
and when the presented token is invalid. -/
def upload_requester (st : ServerState) (req : UploadRequest) :
    Option (String × String × User) :=
  match req.token with
  | none => none
  | some t => get_current_session st t

/-- `upload_file` (server.py lines 571-694).  `now` is the `createdAt` clock
reading and `freshId` the `uuid.uuid4()` file id (which doubles as the share
token).  `request.form.get("password") or None` coerces an empty password
field to absent. -/
def upload_file (st : ServerState) (req : UploadRequest) (now : Int)
    (freshId : String) : ServerState × UploadResult :=
  let userOpt : Option (String × String × User) := upload_requester st req
  match req.file with
  | none => (st, .fileRequired)
  | some (filename, size) =>
    if size > st.policy.maxFileSizeMB * 1024 * 1024 then (st, .fileTooLarge)
    else
      let password : Option String := orNone req.password
      if (match password with
          | some p => decide (p.length < st.policy.requirePasswordMinLength)
          | none => false) then (st, .passwordTooShort)
      else if (match req.availableFrom, req.availableTo with
               | some f, some t => decide (f ≥ t)
               | _, _ => false) then (st, .badWindow)
      else
        let owner_email : Option String := userOpt.map (fun x => x.2.2.email)
        let file_meta : FileMeta :=
          { id := freshId, filename := filename, size := size,
            shareToken := freshId, ownerEmail := owner_email,
            isPublic := req.isPublic, passwordProtected := password.isSome,
            availableFrom := req.availableFrom, availableTo := req.availableTo,
            sharedWith := req.sharedWith, createdAt := now,
            totpEnabled := req.enableTOTP }
        ({ st with files := setKV st.files freshId file_meta },
         .uploaded freshId)

/-- Modelled from the spec: visibility of a share record, section 3 of the
spec (`{Public, Restricted(set of invited emails)}`).  The repository's
source has no Access Evaluator; only `get_file_status` exists in
`server.py`. -/
inductive Visibility where
  | publicShare
  | restricted (invited : List String)
  deriving Repr, DecidableEq

/-- Modelled from the spec: the ShareRecord shape the Access Evaluator reads
(spec section 3): visibility, optional password, second-factor requirement
with a reference to the owner's secret, and the optional availability
window. -/
structure ShareRecord where
  shareToken : String
  owner : String
  size : Nat
  visibility : Visibility
  passwordHash : Option String
  requireSecondFactor : Bool
  ownerSecret : Option String
  availableFrom : Option Int
  availableTo : Option Int
  createdAt : Int
  deriving Repr, DecidableEq

/-- Lifecycle status of a share record (spec section 3). -/
inductive LifecycleStatus where
  | pending
  | active
  | expired
  deriving Repr, DecidableEq

/-- Reasons an access request is denied (spec sections 4.3 and 7). -/
inductive DenyReason where
  | notFound
  | notAvailable
  | notInvited
  | wrongPassword
  | invalidCode
  deriving Repr, DecidableEq

/-- An access decision (spec section 3): `Granted` or `Denied(reason)`. -/
inductive AccessDecision where
  | granted
  | denied (reason : DenyReason)
  deriving Repr, DecidableEq

/-- Credentials presented with a share-access request (spec section 4.3):
an optional requester identity, an optional password and an optional
second-factor code. -/
structure Credentials where
  identity : Option String
  password : Option String
  code : Option String
  deriving Repr, DecidableEq

/-- Modelled from the spec: lifecycle status from the availability window
(spec section 4.3 step 2): before start means Pending, after end means
Expired, otherwise Active; a record with no start and no end is always
Active. -/
def lifecycle (now : Int) (r : ShareRecord) : LifecycleStatus :=
  if r.availableFrom.any (fun t1 => decide (now < t1)) then .pending
  else if r.availableTo.any (fun t2 => decide (t2 < now)) then .expired
  else .active

/-- Modelled from the spec: `Evaluate(shareToken, credentials)` (spec section
4.3), absent from the source.  The Second-Factor Engine is abstracted as the
parameter `verify secret code now`.  Gates run in the fixed order lifecycle,
visibility, password, second factor. -/
def Evaluate (verify : String → String → Int → Bool)
    (registry : List (String × ShareRecord)) (shareToken : String)
    (creds : Credentials) (now : Int) : AccessDecision :=
  match lookup registry shareToken with
  | none => .denied .notFound
  | some r =>
    match lifecycle now r with
    | .pending => .denied .notAvailable
    | .expired => .denied .notAvailable
    | .active =>
      let visOK : Bool :=
        match r.visibility with
        | .publicShare => true
        | .restricted invited =>
          match creds.identity with
          | some who => decide (who ∈ invited)
          | none => false
      if visOK = false then .denied .notInvited
      else
        let pwOK : Bool :=
          match r.passwordHash with
          | some pw => creds.password == some pw
          | none => true
        if pwOK = false then .denied .wrongPassword
        else
          let codeOK : Bool :=
            if r.requireSecondFactor then
              match r.ownerSecret, creds.code with
              | some s, some c => verify s c now
              | _, _ => false
            else true
          if codeOK = false then .denied .invalidCode
          else .granted

/-- A one-user state with a live pending second-factor challenge, the enrolled
secret left as a parameter (used to exhibit that second-factor acceptance is
independent of the secret). -/
def pendingChallengeState (email : String) (secret : Option String) : ServerState :=
  { users := [(email,
      { id := "uuid-u", username := "u", email := email, password := "pw",
        role := "user", totp_enabled := true, totp_secret := secret })],
    sessions := [], totp_temp_sessions := [(email, email)],
    files := [], policy := initialPolicy }

/-- The initial users plus one authenticated session for jitensha and one
2FA-enabled session for eenose: a small reachable-shaped state for concrete
checks. -/
def sampleSessionState : ServerState :=
  { users := initial_users,
    sessions := [("token-abc", "jitensha@hcmut.edu.vn"),
                 ("token-def", "eenose@hcmut.edu.vn")],
    totp_temp_sessions := [], files := [], policy := initialPolicy }

/-- A concrete share record available from instant 10 to instant 20. -/
def sampleFileMeta : FileMeta :=
  { id := "file-1", filename := "a.txt", size := 4, shareToken := "file-1",
    ownerEmail := some "jitensha@hcmut.edu.vn", isPublic := true,
    passwordProtected := false, availableFrom := some 10,
    availableTo := some 20, sharedWith := [], createdAt := 5,
    totpEnabled := false }

/-- A concrete pending (not yet available) share record with both content
gates set, for checking the lifecycle gate masks them. -/
def sampleShareRecord : ShareRecord :=
  { shareToken := "share-1", owner := "uuid-1", size := 4,
    visibility := .restricted ["friend@x.vn"], passwordHash := some "pw123",
    requireSecondFactor := true, ownerSecret := some "S", availableFrom := some 10,
    availableTo := some 20, createdAt := 5 }

/-- `sampleShareRecord` with its password and second-factor gates removed,
for checking that gate changes are unobservable behind the lifecycle gate. -/
def strippedShareRecord : ShareRecord :=
  { sampleShareRecord with
    passwordHash := none, requireSecondFactor := false, ownerSecret := none }

/-- Concrete credentials carrying an uninvited identity, the right password
and a code. -/
def sampleCreds : Credentials :=
  { identity := some "stranger@x.vn", password := some "pw123",
    code := some "123456" }

/-- A concrete anonymous upload request: no bearer token, a small file, and
no optional gates. -/
def sampleUploadRequest : UploadRequest :=
  { token := none, file := some ("a.txt", 4), isPublic := true,
    password := none, availableFrom := none, availableTo := none,
    sharedWith := [], enableTOTP := false }

/-! Theorems.  First the association-list lemmas, then one theorem per claim
(with its witness or counterexample). -/

theorem lookup_setKV {α : Type} (m : List (String × α)) (k k' : String) (v : α) :
    lookup (setKV m k v) k' = if k' = k then some v else lookup m k' := by
  induction m with
  | nil =>
    by_cases h : k = k'
    · subst h; simp [setKV, lookup]
    · have h' : ¬ k' = k := fun hc => h hc.symm
      simp [setKV, lookup, h, h']
  | cons hd tl ih =>
    obtain ⟨k2, v2⟩ := hd
    by_cases h2 : k2 = k
    · subst h2
      by_cases h4 : k2 = k'
      · subst h4; simp [setKV, lookup]
      · have h4' : ¬ k' = k2 := fun hc => h4 hc.symm
        simp [setKV, lookup, h4, h4']
    · by_cases h3 : k2 = k'
      · subst h3
        simp [setKV, lookup, h2]
      · simp [setKV, lookup, h2, h3, ih]

theorem mem_keys_of_lookup {α : Type} {m : List (String × α)} {k : String} {v : α}
    (h : lookup m k = some v) : k ∈ m.map Prod.fst := by
  induction m with
  | nil => simp [lookup] at h
  | cons hd tl ih =>
    obtain ⟨k2, v2⟩ := hd
    by_cases h2 : k2 = k
    · subst h2; simp
    · simp only [lookup, if_neg h2] at h
      exact List.mem_cons_of_mem _ (ih h)

theorem lookup_delKV_self {α : Type} (m : List (String × α)) (k : String)
    (h : keysNodup m) : lookup (delKV m k) k = none := by
  induction m with
  | nil => simp [delKV, lookup]
  | cons hd tl ih =>
    obtain ⟨k2, v2⟩ := hd
    simp only [keysNodup, List.map_cons, List.nodup_cons] at h
    by_cases h2 : k2 = k
    · subst h2
      cases hlk : lookup tl k2 with
      | none => simpa [delKV] using hlk
      | some v => exact absurd (mem_keys_of_lookup hlk) h.1
    · simpa [delKV, lookup, h2] using ih h.2

theorem lookup_delKV_ne {α : Type} (m : List (String × α)) (k k' : String)
    (h : k' ≠ k) : lookup (delKV m k) k' = lookup m k' := by
  induction m with
  | nil => simp [delKV]
  | cons hd tl ih =>
    obtain ⟨k2, v2⟩ := hd
    by_cases h2 : k2 = k
    · subst h2
      have h' : ¬ k2 = k' := fun hc => h hc.symm
      simp [delKV, lookup, h']
    · by_cases h3 : k2 = k'
      · subst h3
        simp [delKV, lookup, h2]
      · simp [delKV, lookup, h2, h3, ih]

theorem get_current_session_some {st : ServerState} {token : String}
    {trip : String × String × User}
    (h : get_current_session st token = some trip) :
    trip.1 = token ∧ lookup st.sessions token = some trip.2.1 ∧
    ¬ trip.2.1 = "" ∧ lookup st.users trip.2.1 = some trip.2.2 := by
  unfold get_current_session at h
  cases hl : lookup st.sessions token with
  | none => simp [hl] at h
  | some e =>
    simp only [hl] at h
    by_cases he : e = ""
    · simp [he] at h
    · simp only [if_neg he] at h
      cases hu : lookup st.users e with
      | none => simp [hu] at h
      | some u =>
        simp only [hu, Option.some.injEq] at h
        subst h
        exact ⟨rfl, rfl, he, hu⟩

theorem containsKey_of_lookup {α : Type} {m : List (String × α)} {k : String} {v : α}
    (h : lookup m k = some v) : containsKey m k = true := by
  induction m with
  | nil => simp [lookup] at h
  | cons hd tl ih =>
    obtain ⟨k2, v2⟩ := hd
    by_cases h2 : k2 = k
    · simp [containsKey, h2]
    · simp only [lookup, if_neg h2] at h
      simp [containsKey, h2, ih h]

/-- C3: for every share record whose availability window is well-formed
(start strictly before end when both are present) and every current time,
`get_file_status` is "pending" when the time is strictly before the start,
"expired" when strictly after the end, and "active" otherwise — the boundary
instants included — and a record with no start and no end is always
"active". -/
theorem c3_lifecycle_status (now : Int) (f : FileMeta)
    (hord : ∀ t1 t2, f.availableFrom = some t1 → f.availableTo = some t2 → t1 < t2) :
    (∀ t1, f.availableFrom = some t1 → now < t1 → get_file_status now f = "pending") ∧
    (∀ t2, f.availableTo = some t2 → t2 < now → get_file_status now f = "expired") ∧
    ((∀ t1, f.availableFrom = some t1 → t1 ≤ now) →
      (∀ t2, f.availableTo = some t2 → now ≤ t2) →
      get_file_status now f = "active") ∧
    (f.availableFrom = none → f.availableTo = none → get_file_status now f = "active") := by
  refine ⟨?_, ?_, ?_, ?_⟩
  · intro t1 h1 hlt
    simp [get_file_status, Option.any, h1, hlt]
  · intro t2 h2 hgt
    cases hf : f.availableFrom with
    | none => simp [get_file_status, Option.any, hf, h2, hgt]
    | some t1 =>
      have h12 := hord t1 t2 hf h2
      have hnp : ¬ now < t1 := by omega
      simp [get_file_status, Option.any, hf, h2, hgt, hnp]
  · intro hfrom hto
    cases hf : f.availableFrom with
    | none =>
      cases ht : f.availableTo with
      | none => simp [get_file_status, Option.any, hf, ht]
      | some t2 =>
        have h2 := hto t2 ht
        have hne : ¬ t2 < now := by omega
        simp [get_file_status, Option.any, hf, ht, hne]
    | some t1 =>
      have h1 := hfrom t1 hf
      have hnp : ¬ now < t1 := by omega
      cases ht : f.availableTo with
      | none => simp [get_file_status, Option.any, hf, ht, hnp]
      | some t2 =>
        have h2 := hto t2 ht
        have hne : ¬ t2 < now := by omega
        simp [get_file_status, Option.any, hf, ht, hnp, hne]
  · intro hf ht
    simp [get_file_status, Option.any, hf, ht]

/-- Witness for C3 at the record available from 10 to 20: times 3, 15, 25
give "pending", "active", "expired", and the boundary instants 10 and 20 give
"active". -/
theorem c3_lifecycle_status_witness :
    get_file_status 3 sampleFileMeta = "pending" ∧
    get_file_status 15 sampleFileMeta = "active" ∧
    get_file_status 25 sampleFileMeta = "expired" ∧
    get_file_status 10 sampleFileMeta = "active" ∧
    get_file_status 20 sampleFileMeta = "active" := by
  have hord : ∀ t1 t2, sampleFileMeta.availableFrom = some t1 →
      sampleFileMeta.availableTo = some t2 → t1 < t2 := by
    intro t1 t2 h1 h2
    simp [sampleFileMeta] at h1 h2
    omega
  refine ⟨?_, ?_, ?_, ?_, ?_⟩
  · exact (c3_lifecycle_status 3 sampleFileMeta hord).1 10 rfl (by decide)
  · exact (c3_lifecycle_status 15 sampleFileMeta hord).2.2.1
      (by intro t1 h1; simp [sampleFileMeta] at h1; omega)
      (by intro t2 h2; simp [sampleFileMeta] at h2; omega)
  · exact (c3_lifecycle_status 25 sampleFileMeta hord).2.1 20 rfl (by decide)
  · exact (c3_lifecycle_status 10 sampleFileMeta hord).2.2.1
      (by intro t1 h1; simp [sampleFileMeta] at h1; omega)
      (by intro t2 h2; simp [sampleFileMeta] at h2; omega)
  · exact (c3_lifecycle_status 20 sampleFileMeta hord).2.2.1
      (by intro t1 h1; simp [sampleFileMeta] at h1; omega)
      (by intro t2 h2; simp [sampleFileMeta] at h2; omega)

/-- C10: registration with an email already present in the user store returns
an error (never the created result) and leaves the whole state, in particular
the user store, unchanged. -/
theorem c10_register_duplicate (st : ServerState)
    (email password username freshId : String)
    (h : containsKey st.users email = true) :
    (register st email password username freshId).1 = st ∧
    (register st email password username freshId).2 ≠ .created := by
  unfold register
  by_cases h1 : email = "" ∨ password = ""
  · simp [h1]
  · simp [h1, h]

/-- Witness for C10: re-registering the initial user jitensha errors and
leaves the state untouched. -/
theorem c10_register_duplicate_witness :
    (register initialState "jitensha@hcmut.edu.vn" "pw-x" "dup" "uuid-9").1
        = initialState ∧
    (register initialState "jitensha@hcmut.edu.vn" "pw-x" "dup" "uuid-9").2
        ≠ .created :=
  c10_register_duplicate initialState "jitensha@hcmut.edu.vn" "pw-x" "dup" "uuid-9"
    (by decide)

/-- C2 counterexample: revoking a token that was never issued does not
succeed: on the initial state (empty session store) `logout` returns
Unauthorized, while the claim requires a success result for every token. -/
theorem c2_counterexample :
    logout initialState "token-absent" = (initialState, .unauthorized) := rfl

/-- C2 amended: revoking a token absent from the session store fails with
Unauthorized and leaves the state unchanged; revoking a live token of an
existing user succeeds and removes exactly that token; a second revoke of the
same token then fails with Unauthorized and changes nothing, so the final
store after revoking twice equals the store after revoking once, but the
second call reports an error rather than success. -/
theorem c2_revoke_behavior (st : ServerState) (token : String)
    (hnodup : keysNodup st.sessions) :
    (lookup st.sessions token = none → logout st token = (st, .unauthorized)) ∧
    (∀ email user, lookup st.sessions token = some email → ¬ email = "" →
      lookup st.users email = some user →
      logout st token =
        ({ st with sessions := delKV st.sessions token }, .loggedOut) ∧
      lookup (delKV st.sessions token) token = none) ∧
    (∀ st2, logout st token = (st2, .loggedOut) →
      logout st2 token = (st2, .unauthorized)) := by
  refine ⟨?_, ?_, ?_⟩
  · intro h
    simp [logout, get_current_user, get_current_session, h]
  · intro email user hsome hne huser
    refine ⟨?_, lookup_delKV_self _ _ hnodup⟩
    simp [logout, get_current_user, get_current_session, hsome, hne, huser,
      containsKey_of_lookup hsome]
  · intro st2 hsucc
    cases hs : get_current_session st token with
    | none =>
      simp [logout, get_current_user, hs] at hsucc
    | some trip =>
      obtain ⟨h1, h2, _, _⟩ := get_current_session_some hs
      have hck := containsKey_of_lookup h2
      have hst2 : st2 = { st with sessions := delKV st.sessions token } := by
        simp [logout, get_current_user, hs, h1, hck] at hsucc
        exact hsucc.symm
      subst hst2
      have hnone : lookup (delKV st.sessions token) token = none :=
        lookup_delKV_self _ _ hnodup
      simp [logout, get_current_user, get_current_session, hnone]

/-- Witness for C2's amended theorem: in a state with a live session
`token-abc` for jitensha, revoking succeeds and deletes the token, and
revoking the never-issued `token-zzz` is Unauthorized. -/
theorem c2_revoke_behavior_witness :
    logout sampleSessionState "token-abc" =
      ({ sampleSessionState with
          sessions := delKV sampleSessionState.sessions "token-abc" },
        .loggedOut) ∧
    logout sampleSessionState "token-zzz" = (sampleSessionState, .unauthorized) :=
  ⟨((c2_revoke_behavior sampleSessionState "token-abc" (by decide)).2.1
      "jitensha@hcmut.edu.vn" _ rfl (by decide) rfl).1,
    (c2_revoke_behavior sampleSessionState "token-zzz" (by decide)).1 rfl⟩

/-- C5: for a user with the second factor enabled, a correct-password login
returns the RequiresSecondFactor result with no token, leaves the session
store unchanged, and creates or replaces the user's single pending challenge
keyed by the email; a direct-login token is only ever issued to users with
the second factor disabled, and the TOTP login step only issues a token when
a live pending challenge exists and the presented code is the accepted one. -/
theorem c5_login_second_factor (st : ServerState)
    (email password freshToken : String) (user : User)
    (hu : lookup st.users email = some user)
    (hpw : user.password = password) (h2fa : user.totp_enabled = true) :
    login st email password freshToken =
      ({ st with totp_temp_sessions := setKV st.totp_temp_sessions email email },
        .requireTOTP) ∧
    (∀ e p t t2, (login st e p t).2 = .loggedIn t2 →
      ∃ u, lookup st.users e = some u ∧ u.totp_enabled = false) ∧
    (∀ e c t t2, (login_totp st e c t).2 = .loggedIn t2 →
      (∃ e2, lookup st.totp_temp_sessions e = some e2 ∧ ¬ e2 = "") ∧
      c = MOCK_TOTP_CODE) := by
  refine ⟨?_, ?_, ?_⟩
  · simp [login, hu, hpw, h2fa]
  · intro e p t t2 h
    cases hlu : lookup st.users e with
    | none => simp [login, hlu] at h
    | some u =>
      by_cases hp : u.password = p
      · by_cases h2 : u.totp_enabled = true
        · simp [login, hlu, hp, h2] at h
        · exact ⟨u, rfl, by simpa using h2⟩
      · simp [login, hlu, hp] at h
  · intro e c t t2 h
    by_cases hm : e = "" ∨ c = ""
    · simp [login_totp, hm] at h
    · cases hle : lookup st.totp_temp_sessions e with
      | none => simp [login_totp, hm, hle] at h
      | some e2 =>
        by_cases he2 : e2 = ""
        · simp [login_totp, hm, hle, he2] at h
        · by_cases hc : c = MOCK_TOTP_CODE
          · exact ⟨⟨e2, rfl, he2⟩, hc⟩
          · simp [login_totp, hm, hle, he2, hc] at h

/-- Witness for C5: logging eenose (second factor enabled) in with the
correct password yields RequiresSecondFactor, no session token, and the
pending challenge. -/
theorem c5_login_second_factor_witness :
    login initialState "eenose@hcmut.edu.vn" "eenose@123" "token-1" =
      ({ initialState with
          totp_temp_sessions :=
            setKV initialState.totp_temp_sessions "eenose@hcmut.edu.vn"
              "eenose@hcmut.edu.vn" }, .requireTOTP) :=
  (c5_login_second_factor initialState "eenose@hcmut.edu.vn" "eenose@123"
    "token-1" _ rfl rfl rfl).1

/-- C6: Validate (the bearer-token lookup `get_current_user`) fails for a
token absent from the session store, fails for a token just revoked by
logout, and fails for a pending-challenge key that is not in the session
store (the session store holds only authenticated sessions; pending
challenges live in a separate store and are not valid tokens).  It is
embedded as a function returning only the lookup result because the source
handler only reads the stores, so no store is mutated by construction. -/
theorem c6_validate_failures (st : ServerState) (token : String)
    (hnodup : keysNodup st.sessions) :
    (lookup st.sessions token = none → get_current_user st token = none) ∧
    (∀ st2, logout st token = (st2, .loggedOut) →
      get_current_user st2 token = none) ∧
    (∀ e v, lookup st.totp_temp_sessions e = some v →
      lookup st.sessions e = none → get_current_user st e = none) := by
  refine ⟨?_, ?_, ?_⟩
  · intro h
    simp [get_current_user, get_current_session, h]
  · intro st2 hsucc
    cases hs : get_current_session st token with
    | none => simp [logout, get_current_user, hs] at hsucc
    | some trip =>
      obtain ⟨h1, h2, _, _⟩ := get_current_session_some hs
      have hck := containsKey_of_lookup h2
      have hst2 : st2 = { st with sessions := delKV st.sessions token } := by
        simp [logout, get_current_user, hs, h1, hck] at hsucc
        exact hsucc.symm
      subst hst2
      simp [get_current_user, get_current_session, lookup_delKV_self _ _ hnodup]
  · intro e v _ h
    simp [get_current_user, get_current_session, h]

/-- Witness for C6: a never-issued token fails, and the live token
`token-abc` fails after it is revoked. -/
theorem c6_validate_failures_witness :
    get_current_user sampleSessionState "token-zzz" = none ∧
    get_current_user (logout sampleSessionState "token-abc").1 "token-abc" = none :=
  ⟨(c6_validate_failures sampleSessionState "token-zzz" (by decide)).1 rfl,
    (c6_validate_failures sampleSessionState "token-abc" (by decide)).2.1
      (logout sampleSessionState "token-abc").1 rfl⟩

/-- C7 counterexample: the initial user store already violates the claimed
invariant: eenose is stored with the second factor enabled and no secret. -/
theorem c7_counterexample :
    ∃ u : User, lookup initial_users "eenose@hcmut.edu.vn" = some u ∧
      u.totp_enabled = true ∧ u.totp_secret = none :=
  ⟨{ id := "uuid-2", username := "eenose", email := "eenose@hcmut.edu.vn",
     password := "eenose@123", role := "user",
     totp_enabled := true, totp_secret := none }, by decide, rfl, rfl⟩

/-- C7 amended: the Enabled state does not imply a stored secret (the initial
store has an Enabled user with no secret, and `totp_verify` enables without
requiring one); what does hold is that a successful DisableSecondFactor
(`totp_disable`) sets the caller's record to Disabled with the secret
cleared, and changes no other user record. -/
theorem c7_disable_clears_secret (st : ServerState) (token code : String)
    (st2 : ServerState) (h : totp_disable st token code = (st2, .ok)) :
    ∃ emailKey user,
      lookup st.sessions token = some emailKey ∧
      lookup st.users emailKey = some user ∧
      st2.users = setKV st.users emailKey
        { user with totp_enabled := false, totp_secret := none } ∧
      lookup st2.users emailKey =
        some { user with totp_enabled := false, totp_secret := none } ∧
      (∀ k, ¬ k = emailKey → lookup st2.users k = lookup st.users k) := by
  cases hs : get_current_session st token with
  | none => simp [totp_disable, hs] at h
  | some trip =>
    obtain ⟨h1, h2, h3, h4⟩ := get_current_session_some hs
    by_cases hc0 : code = ""
    · simp [totp_disable, hs, hc0] at h
    · by_cases hen : trip.2.2.totp_enabled = true
      · by_cases hcm : code = MOCK_TOTP_CODE
        · subst hcm
          simp [totp_disable, hs, hc0, hen] at h
          subst h
          refine ⟨trip.2.1, trip.2.2, h2, h4, rfl, ?_, ?_⟩
          · simp [lookup_setKV]
          · intro k hk
            simp [lookup_setKV, hk]
        · simp [totp_disable, hs, hc0, hen, hcm] at h
      · simp [totp_disable, hs, hc0, hen] at h

/-- Witness for C7's amended theorem: disabling 2FA for eenose over the live
session `token-def` with the accepted code leaves eenose Disabled with no
secret. -/
theorem c7_disable_clears_secret_witness :
    ∃ emailKey user,
      lookup sampleSessionState.sessions "token-def" = some emailKey ∧
      lookup sampleSessionState.users emailKey = some user ∧
      (totp_disable sampleSessionState "token-def" "123456").1.users =
        setKV sampleSessionState.users emailKey
          { user with totp_enabled := false, totp_secret := none } ∧
      lookup (totp_disable sampleSessionState "token-def" "123456").1.users
          emailKey =
        some { user with totp_enabled := false, totp_secret := none } ∧
      (∀ k, ¬ k = emailKey →
        lookup (totp_disable sampleSessionState "token-def" "123456").1.users k =
          lookup sampleSessionState.users k) :=
  c7_disable_clears_secret sampleSessionState "token-def" "123456"
    (totp_disable sampleSessionState "token-def" "123456").1 rfl

/-- C1 counterexample: there is one fixed literal code such that, for a user
with a live pending challenge, a presented nonempty code is accepted exactly
when it equals that literal — whatever secret (if any) is enrolled for the
user, and with no dependence on the current time (the verification step
takes no time input at all).  This refutes the claim that acceptance is the
comparison against a time-step code computed from the user's secret and the
current time and depends on no fixed literal shared across users. -/
theorem c1_counterexample :
    ∃ L : String, ∀ (secret : Option String) (code : String), ¬ code = "" →
      ((login_totp (pendingChallengeState "u@x.vn" secret) "u@x.vn" code
          "token-1").2 = .loggedIn "token-1" ↔ code = L) := by
  refine ⟨MOCK_TOTP_CODE, fun secret code hc => ?_⟩
  constructor
  · intro h
    by_cases hm : code = MOCK_TOTP_CODE
    · exact hm
    · simp [login_totp, pendingChallengeState, lookup, hc, hm] at h
  · intro h
    subst h
    rfl

/-- C1 amended: second-factor verification is the comparison against the
fixed literal `MOCK_TOTP_CODE` ("123456") shared by all users: with a live
pending challenge, a nonempty presented code logs the user in iff it equals
that literal; the decision reads neither the user store (hence not the
enrolled secret) nor any clock, and enabling 2FA via `totp_verify` likewise
succeeds only on that same literal. -/
theorem c1_fixed_code_acceptance (st : ServerState)
    (email code freshToken : String)
    (hemail : ¬ email = "") (hcode : ¬ code = "")
    (hpending : lookup st.totp_temp_sessions email = some email) :
    ((login_totp st email code freshToken).2 = .loggedIn freshToken ↔
      code = MOCK_TOTP_CODE) ∧
    (∀ users2 files2,
      (login_totp { st with users := users2, files := files2 }
          email code freshToken).2 =
        (login_totp st email code freshToken).2) ∧
    (∀ tok c2, (totp_verify st tok c2).2 = .ok → c2 = MOCK_TOTP_CODE) := by
  refine ⟨?_, ?_, ?_⟩
  · constructor
    · intro h
      by_cases hm : code = MOCK_TOTP_CODE
      · exact hm
      · simp [login_totp, hemail, hcode, hpending, hm] at h
    · intro h
      subst h
      simp [login_totp, hemail, hcode, hpending]
  · intro users2 files2
    by_cases hm : code = "123456" <;>
      simp [login_totp, hemail, hcode, hpending, hm, MOCK_TOTP_CODE]
  · intro tok c2 h
    cases hgs : get_current_session st tok with
    | none => simp [totp_verify, hgs] at h
    | some trip =>
      by_cases hz : c2 = ""
      · simp [totp_verify, hgs, hz] at h
      · by_cases hm : c2 = MOCK_TOTP_CODE
        · exact hm
        · simp [totp_verify, hgs, hz, hm] at h

/-- Witness for C1's amended theorem, with the enrolled secret `SECRET-A`:
only the literal "123456" is accepted, and the decision ignores the user
store. -/
theorem c1_fixed_code_acceptance_witness :
    ((login_totp (pendingChallengeState "u@x.vn" (some "SECRET-A")) "u@x.vn"
        "123456" "token-1").2 = .loggedIn "token-1" ↔
      "123456" = MOCK_TOTP_CODE) ∧
    (∀ users2 files2,
      (login_totp { pendingChallengeState "u@x.vn" (some "SECRET-A") with
          users := users2, files := files2 } "u@x.vn" "123456" "token-1").2 =
        (login_totp (pendingChallengeState "u@x.vn" (some "SECRET-A"))
          "u@x.vn" "123456" "token-1").2) ∧
    (∀ tok c2,
      (totp_verify (pendingChallengeState "u@x.vn" (some "SECRET-A")) tok c2).2 =
        .ok → c2 = MOCK_TOTP_CODE) :=
  c1_fixed_code_acceptance (pendingChallengeState "u@x.vn" (some "SECRET-A"))
    "u@x.vn" "123456" "token-1" (by decide) (by decide) rfl

/-- C8: a successful ChangePassword changes only the caller's password field:
the session store, pending challenges, file store and policy are untouched,
every other user record is unchanged, the caller's record changes only in
`password`, and every token valid before the call is valid after, resolving
to a user with the same identity (id and email). -/
theorem c8_change_password_frame (st : ServerState) (token : String)
    (oldPassword totpCode : Option String) (newPassword : String)
    (st2 : ServerState)
    (h : change_password st token oldPassword totpCode newPassword =
      (st2, .changed)) :
    st2.sessions = st.sessions ∧ st2.totp_temp_sessions = st.totp_temp_sessions ∧
    st2.files = st.files ∧ st2.policy = st.policy ∧
    (∃ emailKey user,
      lookup st.sessions token = some emailKey ∧
      lookup st.users emailKey = some user ∧
      st2.users = setKV st.users emailKey { user with password := newPassword } ∧
      (∀ k, ¬ k = emailKey → lookup st2.users k = lookup st.users k) ∧
      lookup st2.users emailKey = some { user with password := newPassword }) ∧
    (∀ t, (get_current_user st2 t).map (fun p => (p.2.id, p.2.email)) =
          (get_current_user st t).map (fun p => (p.2.id, p.2.email))) := by
  cases hs : get_current_session st token with
  | none => simp [change_password, hs] at h
  | some trip =>
    obtain ⟨h1, h2, h3, h4⟩ := get_current_session_some hs
    have key : st2.users = setKV st.users trip.2.1
          { trip.2.2 with password := newPassword } ∧
        st2.sessions = st.sessions ∧
        st2.totp_temp_sessions = st.totp_temp_sessions ∧
        st2.files = st.files ∧ st2.policy = st.policy := by
      by_cases hw : newPassword = "" ∨ newPassword.length < 6
      · simp [change_password, hs, hw] at h
      · by_cases hto : truthy oldPassword = true
        · by_cases hop : trip.2.2.password = oldPassword.getD ""
          · simp [change_password, hs, hw, hto, hop] at h
            subst h
            exact ⟨rfl, rfl, rfl, rfl, rfl⟩
          · simp [change_password, hs, hw, hto, hop] at h
        · by_cases htc : truthy totpCode = true
          · by_cases hen : trip.2.2.totp_enabled = true
            · by_cases hcm : totpCode.getD "" = MOCK_TOTP_CODE
              · simp [change_password, hs, hw, hto, htc, hen, hcm] at h
                subst h
                exact ⟨by simp [hen], rfl, rfl, rfl, rfl⟩
              · simp [change_password, hs, hw, hto, htc, hen, hcm] at h
            · simp [change_password, hs, hw, hto, htc, hen] at h
          · simp [change_password, hs, hw, hto, htc] at h
    refine ⟨key.2.1, key.2.2.1, key.2.2.2.1, key.2.2.2.2, ?_, ?_⟩
    · refine ⟨trip.2.1, trip.2.2, h2, h4, key.1, ?_, ?_⟩
      · intro k hk
        rw [key.1, lookup_setKV, if_neg hk]
      · rw [key.1, lookup_setKV, if_pos rfl]
    · intro t
      unfold get_current_user get_current_session
      rw [key.2.1]
      cases hl : lookup st.sessions t with
      | none => rfl
      | some e =>
        by_cases he : e = ""
        · simp [he]
        · simp only [if_neg he]
          by_cases hek : e = trip.2.1
          · subst hek
            rw [key.1, lookup_setKV, if_pos rfl, h4]
            rfl
          · rw [key.1, lookup_setKV, if_neg hek]

/-- Witness for C8: jitensha changes password over the live session
`token-abc`, proving with the old password; the frame conditions hold at the
resulting state. -/
theorem c8_change_password_frame_witness :
    (change_password sampleSessionState "token-abc" (some "jitensha@123") none
        "newpass7").1.sessions = sampleSessionState.sessions ∧
    (∀ t, (get_current_user
        (change_password sampleSessionState "token-abc" (some "jitensha@123")
          none "newpass7").1 t).map (fun p => (p.2.id, p.2.email)) =
      (get_current_user sampleSessionState t).map
        (fun p => (p.2.id, p.2.email))) := by
  have hmain := c8_change_password_frame sampleSessionState "token-abc"
    (some "jitensha@123") none "newpass7"
    (change_password sampleSessionState "token-abc" (some "jitensha@123") none
      "newpass7").1 rfl
  exact ⟨hmain.1, hmain.2.2.2.2.2⟩

/-- C9: an upload request carrying no valid bearer token is not rejected as
Unauthorized — the endpoint's result type has no unauthorized outcome at
all — and when the request passes the content validations (file present,
size within policy, password absent or long enough, well-ordered window) the
share record is stored with `ownerEmail = none` and the call succeeds. -/
theorem c9_upload_no_auth (st : ServerState) (req : UploadRequest) (now : Int)
    (freshId : String) (filename : String) (size : Nat)
    (hanon : upload_requester st req = none)
    (hfile : req.file = some (filename, size))
    (hsize : ¬ size > st.policy.maxFileSizeMB * 1024 * 1024)
    (hpw : ∀ p, req.password = some p →
      p = "" ∨ ¬ p.length < st.policy.requirePasswordMinLength)
    (hwin : ∀ t1 t2, req.availableFrom = some t1 → req.availableTo = some t2 →
      ¬ t1 ≥ t2) :
    ∃ meta : FileMeta,
      upload_file st req now freshId =
        ({ st with files := setKV st.files freshId meta }, .uploaded freshId) ∧
      meta.ownerEmail = none ∧
      lookup (upload_file st req now freshId).1.files freshId = some meta := by
  have key : ∃ meta : FileMeta, meta.ownerEmail = none ∧
      upload_file st req now freshId =
        ({ st with files := setKV st.files freshId meta }, .uploaded freshId) := by
    have hpwc : (match orNone req.password with
        | some p => decide (p.length < st.policy.requirePasswordMinLength)
        | none => false) = false := by
      cases hp : req.password with
      | none => simp [orNone]
      | some p =>
        by_cases hpe : p = ""
        · simp [orNone, hpe]
        · rcases hpw p hp with h | h
          · exact absurd h hpe
          · simp [orNone, hpe, h]
    have hwc : (match req.availableFrom, req.availableTo with
        | some f, some t => decide (f ≥ t)
        | _, _ => false) = false := by
      cases hf : req.availableFrom with
      | none => cases req.availableTo <;> simp
      | some f =>
        cases ht : req.availableTo with
        | none => simp
        | some t => simp [hwin f t hf ht]
    refine ⟨{
        id := freshId, filename := filename, size := size,
        shareToken := freshId, ownerEmail := none, isPublic := req.isPublic,
        passwordProtected := (orNone req.password).isSome,
        availableFrom := req.availableFrom, availableTo := req.availableTo,
        sharedWith := req.sharedWith, createdAt := now,
        totpEnabled := req.enableTOTP }, rfl, ?_⟩
    simp only [upload_file, hanon, hfile]
    rw [if_neg hsize]
    simp only [hpwc, hwc]
    simp
  obtain ⟨meta, hoe, heq⟩ := key
  refine ⟨meta, heq, hoe, ?_⟩
  rw [heq]
  simp [lookup_setKV]

/-- Witness for C9: the anonymous sample upload succeeds on the initial state
and stores a record owned by nobody. -/
theorem c9_upload_no_auth_witness :
    ∃ meta : FileMeta,
      upload_file initialState sampleUploadRequest 0 "file-9" =
        ({ initialState with
            files := setKV initialState.files "file-9" meta },
          .uploaded "file-9") ∧
      meta.ownerEmail = none ∧
      lookup (upload_file initialState sampleUploadRequest 0 "file-9").1.files
        "file-9" = some meta :=
  c9_upload_no_auth initialState sampleUploadRequest 0 "file-9" "a.txt" 4
    rfl rfl (by decide)
    (by intro p hp; simp [sampleUploadRequest] at hp)
    (by intro t1 t2 h1 h2; simp [sampleUploadRequest] at h1)

/-- C4 (spec-modelled: the Access Evaluator is absent from the source): for a
resolved share record whose lifecycle status is Pending or Expired, Evaluate
denies with NotAvailable for every combination of credentials; for an Active
record with Restricted visibility and a requester not in the invited set it
denies with NotInvited; and in both situations the decision is unchanged
when the record is replaced by any record with the same availability window
and visibility — in particular with the password and second-factor gates
altered or removed — and the verification engine replaced, so the response
reveals nothing about whether the later gates exist. -/
theorem c4_gate_order (verify : String → String → Int → Bool)
    (registry : List (String × ShareRecord)) (tok : String)
    (creds : Credentials) (now : Int) (r : ShareRecord)
    (hr : lookup registry tok = some r) :
    (lifecycle now r = .pending ∨ lifecycle now r = .expired →
      Evaluate verify registry tok creds now = .denied .notAvailable) ∧
    (∀ invited, lifecycle now r = .active → r.visibility = .restricted invited →
      (∀ who, creds.identity = some who → ¬ who ∈ invited) →
      Evaluate verify registry tok creds now = .denied .notInvited) ∧
    (∀ r2 verify2, r2.availableFrom = r.availableFrom →
      r2.availableTo = r.availableTo → r2.visibility = r.visibility →
      (lifecycle now r = .pending ∨ lifecycle now r = .expired ∨
        (∃ invited, r.visibility = .restricted invited ∧
          ∀ who, creds.identity = some who → ¬ who ∈ invited)) →
      Evaluate verify2 (setKV registry tok r2) tok creds now =
        Evaluate verify registry tok creds now) := by
  have hvis : ∀ invited, lifecycle now r = .active →
      r.visibility = .restricted invited →
      (∀ who, creds.identity = some who → ¬ who ∈ invited) →
      Evaluate verify registry tok creds now = .denied .notInvited := by
    intro invited hact hv hninv
    cases hci : creds.identity with
    | none => simp [Evaluate, hr, hact, hv, hci]
    | some who => simp [Evaluate, hr, hact, hv, hci, hninv who hci]
  refine ⟨?_, hvis, ?_⟩
  · intro hl
    rcases hl with hl | hl <;> simp [Evaluate, hr, hl]
  · intro r2 verify2 hfrom hto hv2 hcond
    have hlife : lifecycle now r2 = lifecycle now r := by
      simp [lifecycle, hfrom, hto]
    cases hl : lifecycle now r with
    | pending => simp [Evaluate, hr, lookup_setKV, hlife, hl]
    | expired => simp [Evaluate, hr, lookup_setKV, hlife, hl]
    | active =>
      rcases hcond with hc | hc | ⟨invited, hv, hninv⟩
      · rw [hl] at hc; cases hc
      · rw [hl] at hc; cases hc
      · cases hci : creds.identity with
        | none =>
          simp [Evaluate, hr, lookup_setKV, hlife, hl, hv2, hv, hci]
        | some who =>
          simp [Evaluate, hr, lookup_setKV, hlife, hl, hv2, hv, hci,
            hninv who hci]

/-- Witness for C4: a pending Restricted share with both a password and a
second-factor gate denies with NotAvailable for a stranger who presents the
correct password and a code, and the decision does not change when both
gates are removed and the engine replaced. -/
theorem c4_gate_order_witness :
    Evaluate (fun _ _ _ => true) [("share-1", sampleShareRecord)] "share-1"
      sampleCreds 3 = .denied .notAvailable ∧
    Evaluate (fun _ _ _ => false)
        (setKV [("share-1", sampleShareRecord)] "share-1" strippedShareRecord)
        "share-1" sampleCreds 3 =
      Evaluate (fun _ _ _ => true) [("share-1", sampleShareRecord)] "share-1"
        sampleCreds 3 := by
  have hmain := c4_gate_order (fun _ _ _ => true)
    [("share-1", sampleShareRecord)] "share-1" sampleCreds 3 sampleShareRecord
    rfl
  exact ⟨hmain.1 (Or.inl rfl),
    hmain.2.2 strippedShareRecord (fun _ _ _ => false) rfl rfl rfl
      (Or.inl rfl)⟩

end FileSharing
